import Mathlib

/-!
Verification of the mol* structural Unit / SymmetryGroup core
(`src/mol-plugin/ui/state.tsx`, the `Unit` namespace): units over a model,
lazily memoized derived properties, model remapping, bond-cache sharing and
symmetry-group invariant equality.

Conventions of the embedding:
* JavaScript reference identity of a heap object is modelled by giving the
  corresponding structure a `ref : Nat` allocation tag; two references are
  identical iff the structures (tag included) are equal.
* `undefined` becomes `none`; the mutable per-unit property bag becomes an
  explicit record threaded through getter functions that return the updated
  unit together with a Bool recording whether the computation ran now.
* Numeric coordinates are exact integers: the source's cache decisions use
  exact (`!==`/`===`) comparisons only.
-/

/-- A coordinate store (the source's `Conformation` object: `x`, `y`, `z`
arrays plus a `UUID` field `id`); `ref` models JS reference identity of the
store object. -/
structure Coords where
  ref : Nat
  id : Nat
  x : List Int
  y : List Int
  z : List Int
deriving DecidableEq, Repr

/-- Modelled from the spec: the optional externally supplied explicit
bond-index annotation of a model (`IndexPairBonds.Provider.get`); compared by
reference, so it is represented by its allocation tag. -/
abbrev IndexPairBondsRef := Nat

/-- The external `Model`: coordinate stores plus the static metadata the Unit
code consumes.  `atomicBondPairs`, `residueIndex` and the classification sets
are `Modelled from the spec:` connectivity metadata and hierarchy indices used
by the (out-of-scope) computation helpers. -/
structure Model where
  ref : Nat
  atomicConformation : Coords
  spheres : Coords
  gaussians : Coords
  indexPairBonds : Option IndexPairBondsRef
  atomicBondPairs : List (Nat × Nat)
  residueIndex : List Nat
  polymerSet : List Nat
  gapSet : List Nat
  nucleotideSet : List Nat
  proteinSet : List Nat
  coarsePolymerSet : List Nat
  coarseGapSet : List Nat
deriving DecidableEq, Repr

/-- Modelled from the spec: a `SymmetryOperator` of the trusted linear-algebra
layer, a named 4x4 affine matrix (row-major). -/
structure SymmetryOperator where
  name : String
  matrix : List (List Int)
deriving DecidableEq, Repr

/-- Modelled from the spec: 4x4 matrix product (`Mat4.mul`). -/
def mat4Mul (a b : List (List Int)) : List (List Int) :=
  (List.range 4).map fun i =>
    (List.range 4).map fun j =>
      ((List.range 4).map fun k =>
        ((a.getD i []).getD k 0) * ((b.getD k []).getD j 0)).sum

/-- Modelled from the spec: apply a 4x4 affine matrix to a point. -/
def mat4Apply (m : List (List Int)) (p : Int × Int × Int) : Int × Int × Int :=
  let row := fun i =>
    ((m.getD i []).getD 0 0) * p.1 + ((m.getD i []).getD 1 0) * p.2.1 +
    ((m.getD i []).getD 2 0) * p.2.2 + ((m.getD i []).getD 3 0)
  (row 0, row 1, row 2)

/-- Modelled from the spec: `SymmetryOperator.compose first second` applies
`first` and then `second`, so the composed matrix is `second.matrix *
first.matrix`. -/
def SymmetryOperator.compose (first second : SymmetryOperator) : SymmetryOperator :=
  { name := second.name, matrix := mat4Mul second.matrix first.matrix }

/-- Modelled from the spec: a conformation mapping (`ArrayMapping`) bundles
the operator, the untransformed base coordinate store, and the optional
radius array; transformed positions apply the operator to the base store. -/
structure ArrayMapping where
  operator : SymmetryOperator
  coordinates : Coords
  r : Option (List Int)
deriving DecidableEq, Repr

/-- Modelled from the spec: `SymmetryOperator.createMapping`. -/
def createMapping (op : SymmetryOperator) (coords : Coords) (r : Option (List Int)) :
    ArrayMapping :=
  { operator := op, coordinates := coords, r := r }

/-- The raw (untransformed) coordinates of the mapping's base store at a
given element index. -/
def Coords.at (c : Coords) (i : Nat) : Int × Int × Int :=
  (c.x.getD i 0, c.y.getD i 0, c.z.getD i 0)

/-- Transformed position of element `i` under a mapping: the operator applied
to the base-store coordinates (the contract of `ArrayMapping.x/y/z`). -/
def ArrayMapping.pos (m : ArrayMapping) (i : Nat) : Int × Int × Int :=
  mat4Apply m.operator.matrix (m.coordinates.at i)

/-- Modelled from the spec: a `Boundary` is a minimal enclosing volume; we
record its bounding box. -/
structure Boundary where
  minX : Int
  minY : Int
  minZ : Int
  maxX : Int
  maxY : Int
  maxZ : Int
deriving DecidableEq, Repr

/-- Modelled from the spec: `getBoundary` computes the minimal enclosing box
of the given coordinate store restricted to `indices`. -/
def getBoundary (c : Coords) (indices : List Nat) : Boundary :=
  match indices with
  | [] => ⟨0, 0, 0, 0, 0, 0⟩
  | e :: rest =>
    rest.foldl
      (fun b i =>
        ⟨min b.minX (c.x.getD i 0), min b.minY (c.y.getD i 0), min b.minZ (c.z.getD i 0),
         max b.maxX (c.x.getD i 0), max b.maxY (c.y.getD i 0), max b.maxZ (c.z.getD i 0)⟩)
      ⟨c.x.getD e 0, c.y.getD e 0, c.z.getD e 0,
       c.x.getD e 0, c.y.getD e 0, c.z.getD e 0⟩

/-- Containment test: `inner` is contained in `outer`. -/
def boundaryContains (outer inner : Boundary) : Bool :=
  decide (outer.minX ≤ inner.minX) && decide (outer.minY ≤ inner.minY) &&
  decide (outer.minZ ≤ inner.minZ) && decide (inner.maxX ≤ outer.maxX) &&
  decide (inner.maxY ≤ outer.maxY) && decide (inner.maxZ ≤ outer.maxZ)

/-- Modelled from the spec: `tryAdjustBoundary` attempts an incremental
adjustment of a previously computed boundary against new coordinates for the
same element subset, and reports failure (`none`) when the new extents escape
the old boundary. -/
def tryAdjustBoundary (c : Coords) (indices : List Nat) (b : Boundary) : Option Boundary :=
  let nb := getBoundary c indices
  if boundaryContains b nb then some nb else none

/-- Modelled from the spec: the grid-based spatial index (`GridLookup3D`),
recorded by its construction inputs (coordinate store, element subset and the
boundary it was built from). -/
structure Lookup3D where
  coords : Coords
  elements : List Nat
  boundary : Boundary
deriving DecidableEq, Repr

/-- Modelled from the spec: `GridLookup3D` construction. -/
def mkGridLookup3D (c : Coords) (indices : List Nat) (b : Boundary) : Lookup3D :=
  { coords := c, elements := indices, boundary := b }

/-- Modelled from the spec: inertia-like principal axes, recorded by the
transformed positions they are computed from. -/
structure PrincipalAxes where
  positions : List (Int × Int × Int)
deriving DecidableEq, Repr

/-- The intra-unit bond graph (`IntraUnitBonds`): its pair list and the
`props.canRemap` marker inspected by `tryRemapBonds`. -/
structure IntraUnitBonds where
  pairs : List (Nat × Nat)
  canRemap : Bool
deriving DecidableEq, Repr

/-- Modelled from the spec: ring systems (`UnitRings`) derived from the bond
graph. -/
structure UnitRings where
  source : List (Nat × Nat)
deriving DecidableEq, Repr

/-- The lazily populated derived-property bag of an Atomic unit
(`AtomicProperties`); every field starts out `undefined`. -/
structure AtomicProperties where
  boundary : Option Boundary := none
  lookup3d : Option Lookup3D := none
  principalAxes : Option PrincipalAxes := none
  polymerElements : Option (List Nat) := none
  gapElements : Option (List Nat) := none
  bonds : Option IntraUnitBonds := none
  rings : Option UnitRings := none
  nucleotideElements : Option (List Nat) := none
  proteinElements : Option (List Nat) := none
  residueCount : Option Nat := none
deriving DecidableEq, Repr

/-- Source function `AtomicProperties()` builds an empty property bag. -/
def emptyAtomicProperties : AtomicProperties := {}

/-- The derived-property bag of a coarse unit (`CoarseProperties`). -/
structure CoarseProperties where
  boundary : Option Boundary := none
  lookup3d : Option Lookup3D := none
  principalAxes : Option PrincipalAxes := none
  polymerElements : Option (List Nat) := none
  gapElements : Option (List Nat) := none
deriving DecidableEq, Repr

/-- Source function `CoarseProperties()` builds an empty property bag. -/
def emptyCoarseProperties : CoarseProperties := {}

/-- An Atomic unit (`Unit.Atomic`): immutable identity plus the property
bag. -/
structure Atomic where
  id : Nat
  invariantId : Nat
  chainGroupId : Nat
  traits : Nat
  model : Model
  elements : List Nat
  conformation : ArrayMapping
  props : AtomicProperties
deriving DecidableEq, Repr

/-- The two coarse kinds (`Kind.Spheres` / `Kind.Gaussians`). -/
inductive CoarseKind where
  | spheres
  | gaussians
deriving DecidableEq, Repr

/-- Source function `getCoarseConformation(kind, model)`. -/
def coarseConformationOf (kind : CoarseKind) (m : Model) : Coords :=
  match kind with
  | CoarseKind.spheres => m.spheres
  | CoarseKind.gaussians => m.gaussians

/-- A coarse unit (`Unit.Spheres` / `Unit.Gaussians`, the source's `Coarse`
class with its `kind` field). -/
structure CoarseU where
  kind : CoarseKind
  id : Nat
  invariantId : Nat
  chainGroupId : Nat
  traits : Nat
  model : Model
  elements : List Nat
  conformation : ArrayMapping
  props : CoarseProperties
deriving DecidableEq, Repr

/-- Source function `Unit.isSameConformation(a, model)`: scans `a.elements` comparing the
mapping's base coordinate store (`a.conformation.coordinates`) against the
model's raw atomic store at the same index, exactly. -/
def isSameConformation (a : Atomic) (m : Model) : Bool :=
  a.elements.all fun e =>
    a.conformation.coordinates.x.getD e 0 == m.atomicConformation.x.getD e 0 &&
    a.conformation.coordinates.y.getD e 0 == m.atomicConformation.y.getD e 0 &&
    a.conformation.coordinates.z.getD e 0 == m.atomicConformation.z.getD e 0

/-- Source function `tryRemapBonds(a, old, model)`: decides whether a cached bond graph is
carried over to the new model. -/
def tryRemapBonds (a : Atomic) (old : Option IntraUnitBonds) (m : Model) :
    Option IntraUnitBonds :=
  match old with
  | none => none
  | some o =>
    if a.model.atomicConformation.id = m.atomicConformation.id then some o
    else
      match a.model.indexPairBonds with
      | some oldIndex =>
        match m.indexPairBonds with
        | none => some o
        | some newIndex => if oldIndex = newIndex then some o else none
      | none =>
        if o.canRemap then some o
        else if isSameConformation a m then some o else none

/-- Source function `Unit.Atomic.getChild(elements)`. -/
def Atomic.getChild (u : Atomic) (elements : List Nat) : Atomic :=
  if elements.length = u.elements.length then u
  else { u with elements := elements, props := emptyAtomicProperties }

/-- Source function `Unit.Atomic.applyOperator(id, operator, dontCompose)`. -/
def Atomic.applyOperator (u : Atomic) (newId : Nat) (operator : SymmetryOperator)
    (dontCompose : Bool) : Atomic :=
  let op := if dontCompose then operator
            else SymmetryOperator.compose u.conformation.operator operator
  { u with id := newId,
           conformation := createMapping op u.model.atomicConformation u.conformation.r }

/-- Source function `Unit.Atomic.remapModel(model)`. -/
def Atomic.remapModel (u : Atomic) (m : Model) : Atomic :=
  let boundary : Option Boundary :=
    match u.props.boundary with
    | some b =>
      if isSameConformation u m then some b
      else tryAdjustBoundary m.atomicConformation u.elements b
    | none => none
  let props : AtomicProperties :=
    { u.props with bonds := tryRemapBonds u u.props.bonds m,
                   boundary := boundary, lookup3d := none, principalAxes := none }
  let conformation : ArrayMapping :=
    if u.model.atomicConformation = m.atomicConformation then u.conformation
    else createMapping u.conformation.operator m.atomicConformation none
  { u with model := m, conformation := conformation, props := props }

/-- Source function `Unit.Coarse.getChild(elements)`. -/
def CoarseU.getChild (u : CoarseU) (elements : List Nat) : CoarseU :=
  if elements.length = u.elements.length then u
  else { u with elements := elements, props := emptyCoarseProperties }

/-- Source function `Unit.Coarse.applyOperator(id, operator, dontCompose)`. -/
def CoarseU.applyOperator (u : CoarseU) (newId : Nat) (operator : SymmetryOperator)
    (dontCompose : Bool) : CoarseU :=
  let op := if dontCompose then operator
            else SymmetryOperator.compose u.conformation.operator operator
  { u with id := newId,
           conformation := createMapping op (coarseConformationOf u.kind u.model)
                             u.conformation.r }

/-- Source function `Unit.Coarse.remapModel(model)`. -/
def CoarseU.remapModel (u : CoarseU) (m : Model) : CoarseU :=
  let modelCoarse := coarseConformationOf u.kind m
  let boundary : Option Boundary :=
    match u.props.boundary with
    | some b => tryAdjustBoundary modelCoarse u.elements b
    | none => none
  let props : CoarseProperties :=
    { u.props with boundary := boundary, lookup3d := none, principalAxes := none }
  let conformation : ArrayMapping :=
    if coarseConformationOf u.kind u.model = modelCoarse then u.conformation
    else createMapping u.conformation.operator modelCoarse none
  { u with model := m, conformation := conformation, props := props }

/-- Modelled from the spec: `computeIntraUnitBonds` derives the intra-unit
bond graph from the model's connectivity metadata restricted to the unit's
element subset (bond connectivity is transform-invariant). -/
def computeIntraUnitBonds (u : Atomic) : IntraUnitBonds :=
  { pairs := u.model.atomicBondPairs.filter fun p =>
      u.elements.contains p.1 && u.elements.contains p.2,
    canRemap := false }

/-- Modelled from the spec: `UnitRings.create` derives ring systems from the
unit's bond graph. -/
def unitRingsCreate (u : Atomic) : UnitRings :=
  { source := (computeIntraUnitBonds u).pairs }

/-- Modelled from the spec: `getPrincipalAxes` computes from the transformed
positions of the unit's elements. -/
def getPrincipalAxesAtomic (u : Atomic) : PrincipalAxes :=
  { positions := u.elements.map u.conformation.pos }

/-- Modelled from the spec: coarse `getPrincipalAxes`. -/
def getPrincipalAxesCoarse (u : CoarseU) : PrincipalAxes :=
  { positions := u.elements.map u.conformation.pos }

/-- Modelled from the spec: `getAtomicPolymerElements` classifies the unit's
elements by the model's static polymer metadata. -/
def getAtomicPolymerElements (u : Atomic) : List Nat :=
  u.elements.filter fun e => u.model.polymerSet.contains e

/-- Modelled from the spec: `getAtomicGapElements`. -/
def getAtomicGapElements (u : Atomic) : List Nat :=
  u.elements.filter fun e => u.model.gapSet.contains e

/-- Modelled from the spec: `getNucleotideElements`. -/
def getNucleotideElements (u : Atomic) : List Nat :=
  u.elements.filter fun e => u.model.nucleotideSet.contains e

/-- Modelled from the spec: `getProteinElements`. -/
def getProteinElements (u : Atomic) : List Nat :=
  u.elements.filter fun e => u.model.proteinSet.contains e

/-- Modelled from the spec: `getCoarsePolymerElements`. -/
def getCoarsePolymerElements (u : CoarseU) : List Nat :=
  u.elements.filter fun e => u.model.coarsePolymerSet.contains e

/-- Modelled from the spec: `getCoarseGapElements`. -/
def getCoarseGapElements (u : CoarseU) : List Nat :=
  u.elements.filter fun e => u.model.coarseGapSet.contains e

/-- Modelled from the spec: the residue-count computation walks the model's
residue segmentation restricted to `elements`, counting distinct residues. -/
def computeResidueCount (u : Atomic) : Nat :=
  ((u.elements.map fun e => u.model.residueIndex.getD e 0).dedup).length

/-- Modelled from the spec: the shared per-model bond cache
(`ElementSetIntraBondCache`), a mapping from (model identity, element-subset
value) to a computed bond graph. -/
abbrev BondCache := List ((Nat × List Nat) × IntraUnitBonds)

/-- Source function `cache.get(elements)` on the model-scoped cache: value-equality lookup. -/
def bondCacheGet (c : BondCache) (m : Model) (elements : List Nat) :
    Option IntraUnitBonds :=
  c.lookup (m.ref, elements)

/-- Source function `cache.set(elements, bonds)`. -/
def bondCacheSet (c : BondCache) (m : Model) (elements : List Nat)
    (b : IntraUnitBonds) : BondCache :=
  ((m.ref, elements), b) :: c

/-- The `boundary` getter of `Unit.Atomic`; returns the value, the updated
unit, and whether the computation ran now. -/
def Atomic.boundaryRead (u : Atomic) : Boundary × Atomic × Bool :=
  match u.props.boundary with
  | some b => (b, u, false)
  | none =>
    let b := getBoundary u.model.atomicConformation u.elements
    (b, { u with props := { u.props with boundary := some b } }, true)

/-- The `lookup3d` getter of `Unit.Atomic`; it reads `this.boundary` through
the boundary getter first. -/
def Atomic.lookup3dRead (u : Atomic) : Lookup3D × Atomic × Bool :=
  match u.props.lookup3d with
  | some l => (l, u, false)
  | none =>
    let br := u.boundaryRead
    let l := mkGridLookup3D br.2.1.model.atomicConformation br.2.1.elements br.1
    (l, { br.2.1 with props := { br.2.1.props with lookup3d := some l } }, true)

/-- The `principalAxes` getter of `Unit.Atomic`. -/
def Atomic.principalAxesRead (u : Atomic) : PrincipalAxes × Atomic × Bool :=
  match u.props.principalAxes with
  | some p => (p, u, false)
  | none =>
    let p := getPrincipalAxesAtomic u
    (p, { u with props := { u.props with principalAxes := some p } }, true)

/-- The `bonds` getter of `Unit.Atomic`: consults the instance bag, then the
shared per-model cache, and only then computes (storing into both). -/
def Atomic.bondsRead (u : Atomic) (cache : BondCache) :
    IntraUnitBonds × Atomic × BondCache × Bool :=
  match u.props.bonds with
  | some b => (b, u, cache, false)
  | none =>
    match bondCacheGet cache u.model u.elements with
    | some b => (b, { u with props := { u.props with bonds := some b } }, cache, false)
    | none =>
      let b := computeIntraUnitBonds u
      (b, { u with props := { u.props with bonds := some b } },
       bondCacheSet cache u.model u.elements b, true)

/-- The `rings` getter of `Unit.Atomic`. -/
def Atomic.ringsRead (u : Atomic) : UnitRings × Atomic × Bool :=
  match u.props.rings with
  | some r => (r, u, false)
  | none =>
    let r := unitRingsCreate u
    (r, { u with props := { u.props with rings := some r } }, true)

/-- The `polymerElements` getter of `Unit.Atomic`. -/
def Atomic.polymerElementsRead (u : Atomic) : List Nat × Atomic × Bool :=
  match u.props.polymerElements with
  | some p => (p, u, false)
  | none =>
    let p := getAtomicPolymerElements u
    (p, { u with props := { u.props with polymerElements := some p } }, true)

/-- The `gapElements` getter of `Unit.Atomic`. -/
def Atomic.gapElementsRead (u : Atomic) : List Nat × Atomic × Bool :=
  match u.props.gapElements with
  | some p => (p, u, false)
  | none =>
    let p := getAtomicGapElements u
    (p, { u with props := { u.props with gapElements := some p } }, true)

/-- The `nucleotideElements` getter of `Unit.Atomic`. -/
def Atomic.nucleotideElementsRead (u : Atomic) : List Nat × Atomic × Bool :=
  match u.props.nucleotideElements with
  | some p => (p, u, false)
  | none =>
    let p := getNucleotideElements u
    (p, { u with props := { u.props with nucleotideElements := some p } }, true)

/-- The `proteinElements` getter of `Unit.Atomic`. -/
def Atomic.proteinElementsRead (u : Atomic) : List Nat × Atomic × Bool :=
  match u.props.proteinElements with
  | some p => (p, u, false)
  | none =>
    let p := getProteinElements u
    (p, { u with props := { u.props with proteinElements := some p } }, true)

/-- The `residueCount` getter of `Unit.Atomic`. -/
def Atomic.residueCountRead (u : Atomic) : Nat × Atomic × Bool :=
  match u.props.residueCount with
  | some n => (n, u, false)
  | none =>
    let n := computeResidueCount u
    (n, { u with props := { u.props with residueCount := some n } }, true)

/-- The `boundary` getter of the coarse variants. -/
def CoarseU.boundaryRead (u : CoarseU) : Boundary × CoarseU × Bool :=
  match u.props.boundary with
  | some b => (b, u, false)
  | none =>
    let b := getBoundary (coarseConformationOf u.kind u.model) u.elements
    (b, { u with props := { u.props with boundary := some b } }, true)

/-- The `lookup3d` getter of the coarse variants. -/
def CoarseU.lookup3dRead (u : CoarseU) : Lookup3D × CoarseU × Bool :=
  match u.props.lookup3d with
  | some l => (l, u, false)
  | none =>
    let br := u.boundaryRead
    let l := mkGridLookup3D (coarseConformationOf br.2.1.kind br.2.1.model)
               br.2.1.elements br.1
    (l, { br.2.1 with props := { br.2.1.props with lookup3d := some l } }, true)

/-- The `principalAxes` getter of the coarse variants. -/
def CoarseU.principalAxesRead (u : CoarseU) : PrincipalAxes × CoarseU × Bool :=
  match u.props.principalAxes with
  | some p => (p, u, false)
  | none =>
    let p := getPrincipalAxesCoarse u
    (p, { u with props := { u.props with principalAxes := some p } }, true)

/-- The `polymerElements` getter of the coarse variants. -/
def CoarseU.polymerElementsRead (u : CoarseU) : List Nat × CoarseU × Bool :=
  match u.props.polymerElements with
  | some p => (p, u, false)
  | none =>
    let p := getCoarsePolymerElements u
    (p, { u with props := { u.props with polymerElements := some p } }, true)

/-- The `gapElements` getter of the coarse variants. -/
def CoarseU.gapElementsRead (u : CoarseU) : List Nat × CoarseU × Bool :=
  match u.props.gapElements with
  | some p => (p, u, false)
  | none =>
    let p := getCoarseGapElements u
    (p, { u with props := { u.props with gapElements := some p } }, true)

/-- Either Unit variant, for the symmetry-group layer (`type Unit = Atomic |
Spheres | Gaussians`). -/
inductive AnyUnit where
  | atomic (u : Atomic)
  | coarse (u : CoarseU)
deriving DecidableEq, Repr

/-- Projection `unit.id`. -/
def AnyUnit.id : AnyUnit → Nat
  | AnyUnit.atomic u => u.id
  | AnyUnit.coarse u => u.id

/-- Projection `unit.invariantId`. -/
def AnyUnit.invariantId : AnyUnit → Nat
  | AnyUnit.atomic u => u.invariantId
  | AnyUnit.coarse u => u.invariantId

/-- Projection `unit.elements`. -/
def AnyUnit.elements : AnyUnit → List Nat
  | AnyUnit.atomic u => u.elements
  | AnyUnit.coarse u => u.elements

/-- Modelled from the spec: the FNV-1a 32-bit hash (`hashFnv32a`) over a
number sequence. -/
def hashFnv32a (xs : List Nat) : Nat :=
  xs.foldl (fun h x => ((h ^^^ (x % 4294967296)) * 16777619) % 4294967296) 2166136261

/-- Modelled from the spec: the two-argument combining hash (`hash2`). -/
def hash2 (i j : Nat) : Nat :=
  (31 * ((31 * 23 + i) % 4294967296) + j) % 4294967296

/-- Modelled from the spec: `SortedArray.hashCode`, an order-sensitive hash
of the element sequence. -/
def sortedArrayHashCode (xs : List Nat) : Nat :=
  hashFnv32a xs

/-- Modelled from the spec: `SortedArray.areEqual`, full ordered sequence
equality. -/
def sortedArrayAreEqual (a b : List Nat) : Bool :=
  a == b

/-- Source function `Unit.hashUnit(u) = hash2(u.invariantId, SortedArray.hashCode(u.elements))`. -/
def hashUnit (u : AnyUnit) : Nat :=
  hash2 u.invariantId (sortedArrayHashCode u.elements)

/-- A `Unit.SymmetryGroup` value: canonical elements (the first unit's), the
unit list, the id-to-position map, and the two hashes. -/
structure SymmetryGroup where
  elements : List Nat
  units : List AnyUnit
  unitIndexMap : List (Nat × Nat)
  hashCode : Nat
  transformHash : Nat
deriving DecidableEq, Repr

/-- Source function `getUnitIndexMap(units)` (computed eagerly here; the source builds it
lazily on first access, which no claim observes). -/
def getUnitIndexMap (units : List AnyUnit) : List (Nat × Nat) :=
  (units.enum.map fun p => (p.2.id, p.1))

/-- Source function `getTransformHash(units) = hashFnv32a(ids)`. -/
def getTransformHash (units : List AnyUnit) : Nat :=
  hashFnv32a (units.map AnyUnit.id)

/-- The `Unit.SymmetryGroup(units)` constructor; the source indexes
`units[0]`, so the first unit is passed explicitly (nonempty by contract). -/
def mkSymmetryGroup (u0 : AnyUnit) (rest : List AnyUnit) : SymmetryGroup :=
  { elements := u0.elements,
    units := u0 :: rest,
    unitIndexMap := getUnitIndexMap (u0 :: rest),
    hashCode := hashUnit u0,
    transformHash := getTransformHash (u0 :: rest) }

/-- Source function `Unit.SymmetryGroup.areInvariantElementsEqual(a, b)`: hash pre-filter,
then exact ordered comparison of the canonical element subsets. -/
def areInvariantElementsEqual (a b : SymmetryGroup) : Bool :=
  if a.hashCode ≠ b.hashCode then false
  else sortedArrayAreEqual a.elements b.elements

/-- A store of `AtomicProperties` objects addressed by allocation tag: makes
the JS object identity of the mutable property bag explicit, so that units
passing the same bag by reference observe each other's writes. -/
structure PropsStore where
  entries : List (Nat × AtomicProperties)
deriving DecidableEq, Repr

/-- Dereference a property-bag tag (an absent tag reads as an empty bag). -/
def PropsStore.read (s : PropsStore) (r : Nat) : AtomicProperties :=
  (s.entries.lookup r).getD emptyAtomicProperties

/-- Overwrite the bag behind a tag. -/
def PropsStore.write (s : PropsStore) (r : Nat) (p : AtomicProperties) : PropsStore :=
  { entries := (r, p) :: s.entries }

/-- An Atomic unit holding its property bag by reference (`this.props` is a
shared heap object in the source). -/
structure AtomicRef where
  id : Nat
  invariantId : Nat
  chainGroupId : Nat
  traits : Nat
  model : Model
  elements : List Nat
  conformation : ArrayMapping
  propsRef : Nat
deriving DecidableEq, Repr

/-- Source function `Unit.Atomic.applyOperator` at the heap level: the constructor receives
`this.props` itself, so the new unit aliases the same bag (same tag). -/
def AtomicRef.applyOperator (u : AtomicRef) (newId : Nat) (operator : SymmetryOperator)
    (dontCompose : Bool) : AtomicRef :=
  let op := if dontCompose then operator
            else SymmetryOperator.compose u.conformation.operator operator
  { u with id := newId,
           conformation := createMapping op u.model.atomicConformation u.conformation.r }

/-- The `boundary` getter at the heap level: reads and writes the shared
bag. -/
def AtomicRef.boundaryRead (s : PropsStore) (u : AtomicRef) : Boundary × PropsStore :=
  match (s.read u.propsRef).boundary with
  | some b => (b, s)
  | none =>
    let b := getBoundary u.model.atomicConformation u.elements
    (b, s.write u.propsRef { s.read u.propsRef with boundary := some b })

/-- The `lookup3d` getter at the heap level (reads `this.boundary` first). -/
def AtomicRef.lookup3dRead (s : PropsStore) (u : AtomicRef) : Lookup3D × PropsStore :=
  match (s.read u.propsRef).lookup3d with
  | some l => (l, s)
  | none =>
    let br := AtomicRef.boundaryRead s u
    let l := mkGridLookup3D u.model.atomicConformation u.elements br.1
    (l, br.2.write u.propsRef { br.2.read u.propsRef with lookup3d := some l })

/-- Modelled from the spec: `getPrincipalAxes` over the heap-level unit. -/
def AtomicRef.principalAxes (u : AtomicRef) : PrincipalAxes :=
  { positions := u.elements.map u.conformation.pos }

/-- The `principalAxes` getter at the heap level. -/
def AtomicRef.principalAxesRead (s : PropsStore) (u : AtomicRef) :
    PrincipalAxes × PropsStore :=
  match (s.read u.propsRef).principalAxes with
  | some p => (p, s)
  | none =>
    let p := u.principalAxes
    (p, s.write u.propsRef { s.read u.propsRef with principalAxes := some p })

/-- A store of `CoarseProperties` objects addressed by allocation tag: the
coarse counterpart of `PropsStore`. -/
structure CoarsePropsStore where
  entries : List (Nat × CoarseProperties)
deriving DecidableEq, Repr

/-- Dereference a coarse property-bag tag (an absent tag reads as an empty
bag). -/
def CoarsePropsStore.read (s : CoarsePropsStore) (r : Nat) : CoarseProperties :=
  (s.entries.lookup r).getD emptyCoarseProperties

/-- Overwrite the coarse bag behind a tag. -/
def CoarsePropsStore.write (s : CoarsePropsStore) (r : Nat) (p : CoarseProperties) :
    CoarsePropsStore :=
  { entries := (r, p) :: s.entries }

/-- A coarse unit holding its property bag by reference (`this.props` is a
shared heap object in the source's `Coarse` class too). -/
structure CoarseRef where
  kind : CoarseKind
  id : Nat
  invariantId : Nat
  chainGroupId : Nat
  traits : Nat
  model : Model
  elements : List Nat
  conformation : ArrayMapping
  propsRef : Nat
deriving DecidableEq, Repr

/-- Source function `Unit.Coarse.applyOperator` at the heap level: the
constructor receives `this.props` itself, so the new coarse unit aliases the
same bag (same tag). -/
def CoarseRef.applyOperator (u : CoarseRef) (newId : Nat) (operator : SymmetryOperator)
    (dontCompose : Bool) : CoarseRef :=
  let op := if dontCompose then operator
            else SymmetryOperator.compose u.conformation.operator operator
  { u with id := newId,
           conformation := createMapping op (coarseConformationOf u.kind u.model)
                             u.conformation.r }

/-- The coarse `boundary` getter at the heap level. -/
def CoarseRef.boundaryRead (s : CoarsePropsStore) (u : CoarseRef) :
    Boundary × CoarsePropsStore :=
  match (s.read u.propsRef).boundary with
  | some b => (b, s)
  | none =>
    let b := getBoundary (coarseConformationOf u.kind u.model) u.elements
    (b, s.write u.propsRef { s.read u.propsRef with boundary := some b })

/-- The coarse `lookup3d` getter at the heap level (reads `this.boundary`
first). -/
def CoarseRef.lookup3dRead (s : CoarsePropsStore) (u : CoarseRef) :
    Lookup3D × CoarsePropsStore :=
  match (s.read u.propsRef).lookup3d with
  | some l => (l, s)
  | none =>
    let br := CoarseRef.boundaryRead s u
    let l := mkGridLookup3D (coarseConformationOf u.kind u.model) u.elements br.1
    (l, br.2.write u.propsRef { br.2.read u.propsRef with lookup3d := some l })

/-- Modelled from the spec: `getPrincipalAxes` over the heap-level coarse
unit. -/
def CoarseRef.principalAxes (u : CoarseRef) : PrincipalAxes :=
  { positions := u.elements.map u.conformation.pos }

/-- The coarse `principalAxes` getter at the heap level. -/
def CoarseRef.principalAxesRead (s : CoarsePropsStore) (u : CoarseRef) :
    PrincipalAxes × CoarsePropsStore :=
  match (s.read u.propsRef).principalAxes with
  | some p => (p, s)
  | none =>
    let p := u.principalAxes
    (p, s.write u.propsRef { s.read u.propsRef with principalAxes := some p })

/-- The claim's reading of the coordinate-identity check, for refinement
comparison: transformed coordinates under the unit's operator compared
against the model's raw store. -/
def isSameConformationSpec (a : Atomic) (m : Model) : Bool :=
  a.elements.all fun e =>
    decide ((a.conformation.pos e).1 = m.atomicConformation.x.getD e 0) &&
    decide ((a.conformation.pos e).2.1 = m.atomicConformation.y.getD e 0) &&
    decide ((a.conformation.pos e).2.2 = m.atomicConformation.z.getD e 0)

/-- Identity operator fixture. -/
def opIdentity : SymmetryOperator :=
  { name := "1_555", matrix := [[1,0,0,0],[0,1,0,0],[0,0,1,0],[0,0,0,1]] }

/-- A translation-by-(1,0,0) operator fixture. -/
def opShiftX : SymmetryOperator :=
  { name := "t_100", matrix := [[1,0,0,1],[0,1,0,0],[0,0,1,0],[0,0,0,1]] }

/-- Atomic coordinate-store fixture (two atoms). -/
def coordsA : Coords := { ref := 10, id := 100, x := [0, 2], y := [0, 0], z := [0, 0] }

/-- Sphere-store fixture. -/
def coordsS : Coords := { ref := 11, id := 101, x := [5], y := [5], z := [5] }

/-- Gaussian-store fixture. -/
def coordsG : Coords := { ref := 12, id := 102, x := [7], y := [7], z := [7] }

/-- Model fixture owning `coordsA`. -/
def modelA : Model :=
  { ref := 1, atomicConformation := coordsA, spheres := coordsS, gaussians := coordsG,
    indexPairBonds := none, atomicBondPairs := [(0, 1)], residueIndex := [0, 0],
    polymerSet := [0], gapSet := [], nucleotideSet := [], proteinSet := [0, 1],
    coarsePolymerSet := [0], coarseGapSet := [] }

/-- A unit over `modelA` whose operator translates by `(1,0,0)` while its
base store is the model's own store. -/
def c2Unit : Atomic :=
  { id := 1, invariantId := 0, chainGroupId := 0, traits := 0, model := modelA,
    elements := [0], conformation := createMapping opShiftX coordsA none,
    props := {} }

/-- C2: the claim is false on the code: for a unit with a translating
operator whose base store is the model's own store, `isSameConformation`
returns `true` although the operator-transformed x-coordinate of element 0
differs from the model's raw x-coordinate, so the claimed iff (against
transformed coordinates) fails at this input. -/
theorem c2_same_conformation_cex :
    isSameConformation c2Unit modelA = true ∧
    isSameConformationSpec c2Unit modelA = false ∧
    (c2Unit.conformation.pos 0).1 ≠ modelA.atomicConformation.x.getD 0 0 := by
  decide

/-- C2 (amended): `isSameConformation(u, model)` returns true iff, for every
element index in `u.elements`, the unit conformation's *untransformed* base
coordinate store agrees exactly with the model's raw store at that index;
it returns false if any coordinate differs. -/
theorem c2_same_conformation_amended (a : Atomic) (m : Model) :
    isSameConformation a m = true ↔
      ∀ e ∈ a.elements,
        a.conformation.coordinates.x.getD e 0 = m.atomicConformation.x.getD e 0 ∧
        a.conformation.coordinates.y.getD e 0 = m.atomicConformation.y.getD e 0 ∧
        a.conformation.coordinates.z.getD e 0 = m.atomicConformation.z.getD e 0 := by
  simp [isSameConformation, List.all_eq_true, and_assoc]

/-- A second atomic store with different contents, id and reference. -/
def coordsB : Coords := { ref := 20, id := 200, x := [9, 9], y := [9, 9], z := [9, 9] }

/-- Fixture: `modelA` with an explicit bond-index annotation attached. -/
def modelIdxA : Model := { modelA with indexPairBonds := some 1 }

/-- A different model: new store (new conformation id) and a *different*
explicit bond-index annotation. -/
def modelIdxB : Model :=
  { modelA with ref := 2, atomicConformation := coordsB, indexPairBonds := some 2 }

/-- A unit bound to `modelIdxA` with the identity operator over its store. -/
def c3Unit : Atomic :=
  { id := 2, invariantId := 0, chainGroupId := 0, traits := 0, model := modelIdxA,
    elements := [0, 1], conformation := createMapping opIdentity coordsA none,
    props := {} }

/-- A cached bond graph explicitly marked remappable. -/
def bondsCanRemap : IntraUnitBonds := { pairs := [(0, 1)], canRemap := true }

/-- C3: the claim is false on the code: with differing conformation ids and
*different* explicit bond-index annotations on the two models, the bonds are
dropped even though the cached data is marked `canRemap` — condition (c) of
the claim is not sufficient on its own. -/
theorem c3_try_remap_bonds_cex :
    tryRemapBonds c3Unit (some bondsCanRemap) modelIdxB = none ∧
    bondsCanRemap.canRemap = true ∧
    modelIdxA.atomicConformation.id ≠ modelIdxB.atomicConformation.id := by
  decide

/-- C3 (amended): cached bonds survive a remap iff (a) the two models share
the same atomic-conformation identity; or else, when the old model carries an
explicit bond-index annotation, the new model carries none or the same one
(annotation presence overrides the remaining checks, dropping the bonds on a
mismatch even if `canRemap` is set); or, only when the old model carries no
annotation, the cached data is marked `canRemap` or the unit's base
coordinates coincide exactly with the new model's.  Absent cached bonds stay
absent. -/
theorem c3_try_remap_bonds_amended (a : Atomic) (o : IntraUnitBonds) (m : Model) :
    tryRemapBonds a none m = none ∧
    (tryRemapBonds a (some o) m = some o ↔
      (a.model.atomicConformation.id = m.atomicConformation.id ∨
       (∃ oi, a.model.indexPairBonds = some oi ∧
          (m.indexPairBonds = none ∨ m.indexPairBonds = some oi)) ∨
       (a.model.indexPairBonds = none ∧
          (o.canRemap = true ∨ isSameConformation a m = true)))) := by
  refine ⟨rfl, ?_⟩
  simp only [tryRemapBonds]
  by_cases hid : a.model.atomicConformation.id = m.atomicConformation.id
  · simp [hid]
  · cases hA : a.model.indexPairBonds with
    | none =>
      by_cases hcr : o.canRemap <;> by_cases hsc : isSameConformation a m <;>
        simp [hid, hA, hcr, hsc]
    | some oi =>
      cases hB : m.indexPairBonds with
      | none => simp [hid, hA, hB]
      | some ni =>
        rcases eq_or_ne oi ni with hni | hni
        · subst hni
          simp [hid, hA, hB]
        · have hni2 : ¬ni = oi := fun h => hni h.symm
          simp [hid, hA, hB, hni, hni2]

/-- A coarse (Spheres) unit fixture over `modelA`. -/
def coarseUnitA : CoarseU :=
  { kind := CoarseKind.spheres, id := 3, invariantId := 1, chainGroupId := 0,
    traits := 0, model := modelA, elements := [0],
    conformation := createMapping opIdentity coordsS none, props := {} }

/-- C4: `getChild` is the identity (the very same unit) whenever the subset
has the same length as the unit's elements, and otherwise builds a unit of
the same kind and identity over the subset with an empty derived-property
bag. -/
theorem c4_get_child_identity (u : Atomic) (s : List Nat) (c : CoarseU) (t : List Nat) :
    (s.length = u.elements.length → u.getChild s = u) ∧
    (s.length ≠ u.elements.length →
      u.getChild s = { u with elements := s, props := emptyAtomicProperties }) ∧
    (t.length = c.elements.length → c.getChild t = c) ∧
    (t.length ≠ c.elements.length →
      c.getChild t = { c with elements := t, props := emptyCoarseProperties }) := by
  refine ⟨fun h => ?_, fun h => ?_, fun h => ?_, fun h => ?_⟩ <;>
    simp [Atomic.getChild, CoarseU.getChild, h]

/-- C4 witness: the identity law and the cleared-cache law at concrete
units. -/
theorem c4_get_child_identity_witness :
    c2Unit.getChild c2Unit.elements = c2Unit ∧
    coarseUnitA.getChild coarseUnitA.elements = coarseUnitA ∧
    (c2Unit.getChild [5, 6]).props = emptyAtomicProperties := by
  refine ⟨(c4_get_child_identity c2Unit c2Unit.elements coarseUnitA coarseUnitA.elements).1 rfl,
          (c4_get_child_identity c2Unit c2Unit.elements coarseUnitA coarseUnitA.elements).2.2.1 rfl,
          ?_⟩
  rw [(c4_get_child_identity c2Unit [5, 6] coarseUnitA []).2.1 (by decide)]

/-- C9: `applyOperator(id, op, dontCompose)` carries the supplied id and
preserves invariantId, chainGroupId, traits, elements and model; the new
conformation's operator is the composition of the old operator with `op`
by default, and exactly `op` under the dont-compose flag. -/
theorem c9_apply_operator_fields (u : Atomic) (c : CoarseU) (newId : Nat)
    (op : SymmetryOperator) (dc : Bool) :
    ((u.applyOperator newId op dc).id = newId ∧
     (u.applyOperator newId op dc).invariantId = u.invariantId ∧
     (u.applyOperator newId op dc).chainGroupId = u.chainGroupId ∧
     (u.applyOperator newId op dc).traits = u.traits ∧
     (u.applyOperator newId op dc).elements = u.elements ∧
     (u.applyOperator newId op dc).model = u.model ∧
     (u.applyOperator newId op dc).conformation.operator =
       (if dc then op else SymmetryOperator.compose u.conformation.operator op)) ∧
    ((c.applyOperator newId op dc).id = newId ∧
     (c.applyOperator newId op dc).invariantId = c.invariantId ∧
     (c.applyOperator newId op dc).chainGroupId = c.chainGroupId ∧
     (c.applyOperator newId op dc).traits = c.traits ∧
     (c.applyOperator newId op dc).elements = c.elements ∧
     (c.applyOperator newId op dc).model = c.model ∧
     (c.applyOperator newId op dc).kind = c.kind ∧
     (c.applyOperator newId op dc).conformation.operator =
       (if dc then op else SymmetryOperator.compose c.conformation.operator op)) := by
  cases dc <;>
    simp [Atomic.applyOperator, CoarseU.applyOperator, createMapping]

/-- Reading the bag tag just written. -/
theorem propsStore_read_write (s : PropsStore) (r : Nat) (p : AtomicProperties) :
    (s.write r p).read r = p := by
  simp [PropsStore.read, PropsStore.write, List.lookup]

/-- A boundary read leaves the computed value visible behind the unit's bag
tag. -/
theorem boundaryRead_visible (s : PropsStore) (v : AtomicRef) :
    ((AtomicRef.boundaryRead s v).2.read v.propsRef).boundary =
      some (AtomicRef.boundaryRead s v).1 := by
  cases h : (s.read v.propsRef).boundary with
  | some b => simp [AtomicRef.boundaryRead, h]
  | none => simp [AtomicRef.boundaryRead, h, propsStore_read_write]

/-- A lookup3d read leaves the computed value visible behind the unit's bag
tag. -/
theorem lookup3dRead_visible (s : PropsStore) (v : AtomicRef) :
    ((AtomicRef.lookup3dRead s v).2.read v.propsRef).lookup3d =
      some (AtomicRef.lookup3dRead s v).1 := by
  cases h : (s.read v.propsRef).lookup3d with
  | some l => simp [AtomicRef.lookup3dRead, h]
  | none => simp [AtomicRef.lookup3dRead, h, propsStore_read_write]

/-- A principal-axes read leaves the computed value visible behind the
unit's bag tag. -/
theorem principalAxesRead_visible (s : PropsStore) (v : AtomicRef) :
    ((AtomicRef.principalAxesRead s v).2.read v.propsRef).principalAxes =
      some (AtomicRef.principalAxesRead s v).1 := by
  cases h : (s.read v.propsRef).principalAxes with
  | some p => simp [AtomicRef.principalAxesRead, h]
  | none => simp [AtomicRef.principalAxesRead, h, propsStore_read_write]

/-- Reading the coarse bag tag just written. -/
theorem coarseStore_read_write (s : CoarsePropsStore) (r : Nat) (p : CoarseProperties) :
    (s.write r p).read r = p := by
  simp [CoarsePropsStore.read, CoarsePropsStore.write, List.lookup]

/-- A coarse boundary read leaves the computed value visible behind the
unit's bag tag. -/
theorem coarse_boundaryRead_visible (s : CoarsePropsStore) (v : CoarseRef) :
    ((CoarseRef.boundaryRead s v).2.read v.propsRef).boundary =
      some (CoarseRef.boundaryRead s v).1 := by
  cases h : (s.read v.propsRef).boundary with
  | some b => simp [CoarseRef.boundaryRead, h]
  | none => simp [CoarseRef.boundaryRead, h, coarseStore_read_write]

/-- A coarse lookup3d read leaves the computed value visible behind the
unit's bag tag. -/
theorem coarse_lookup3dRead_visible (s : CoarsePropsStore) (v : CoarseRef) :
    ((CoarseRef.lookup3dRead s v).2.read v.propsRef).lookup3d =
      some (CoarseRef.lookup3dRead s v).1 := by
  cases h : (s.read v.propsRef).lookup3d with
  | some l => simp [CoarseRef.lookup3dRead, h]
  | none => simp [CoarseRef.lookup3dRead, h, coarseStore_read_write]

/-- A coarse principal-axes read leaves the computed value visible behind
the unit's bag tag. -/
theorem coarse_principalAxesRead_visible (s : CoarsePropsStore) (v : CoarseRef) :
    ((CoarseRef.principalAxesRead s v).2.read v.propsRef).principalAxes =
      some (CoarseRef.principalAxesRead s v).1 := by
  cases h : (s.read v.propsRef).principalAxes with
  | some p => simp [CoarseRef.principalAxesRead, h]
  | none => simp [CoarseRef.principalAxesRead, h, coarseStore_read_write]

/-- C10: `applyOperator` hands the new unit the *same* property bag (same
reference) for Atomic and for coarse units alike, so at creation the cache
states coincide, and a geometry property (boundary, lookup3d, principalAxes
— the latter computed for the new unit's transform) computed through either
unit is immediately visible through the other's bag reference. -/
theorem c10_apply_operator_shares_props (u : AtomicRef) (newId : Nat)
    (op : SymmetryOperator) (dc : Bool) (s : PropsStore)
    (cu : CoarseRef) (t : CoarsePropsStore) :
    ((u.applyOperator newId op dc).propsRef = u.propsRef ∧
     s.read (u.applyOperator newId op dc).propsRef = s.read u.propsRef ∧
     ((AtomicRef.boundaryRead s (u.applyOperator newId op dc)).2.read
         u.propsRef).boundary =
       some (AtomicRef.boundaryRead s (u.applyOperator newId op dc)).1 ∧
     ((AtomicRef.lookup3dRead s (u.applyOperator newId op dc)).2.read
         u.propsRef).lookup3d =
       some (AtomicRef.lookup3dRead s (u.applyOperator newId op dc)).1 ∧
     ((AtomicRef.principalAxesRead s (u.applyOperator newId op dc)).2.read
         u.propsRef).principalAxes =
       some (AtomicRef.principalAxesRead s (u.applyOperator newId op dc)).1 ∧
     ((AtomicRef.boundaryRead s u).2.read
         (u.applyOperator newId op dc).propsRef).boundary =
       some (AtomicRef.boundaryRead s u).1) ∧
    ((cu.applyOperator newId op dc).propsRef = cu.propsRef ∧
     t.read (cu.applyOperator newId op dc).propsRef = t.read cu.propsRef ∧
     ((CoarseRef.boundaryRead t (cu.applyOperator newId op dc)).2.read
         cu.propsRef).boundary =
       some (CoarseRef.boundaryRead t (cu.applyOperator newId op dc)).1 ∧
     ((CoarseRef.lookup3dRead t (cu.applyOperator newId op dc)).2.read
         cu.propsRef).lookup3d =
       some (CoarseRef.lookup3dRead t (cu.applyOperator newId op dc)).1 ∧
     ((CoarseRef.principalAxesRead t (cu.applyOperator newId op dc)).2.read
         cu.propsRef).principalAxes =
       some (CoarseRef.principalAxesRead t (cu.applyOperator newId op dc)).1 ∧
     ((CoarseRef.boundaryRead t cu).2.read
         (cu.applyOperator newId op dc).propsRef).boundary =
       some (CoarseRef.boundaryRead t cu).1) := by
  exact ⟨⟨rfl, rfl,
          boundaryRead_visible s (u.applyOperator newId op dc),
          lookup3dRead_visible s (u.applyOperator newId op dc),
          principalAxesRead_visible s (u.applyOperator newId op dc),
          boundaryRead_visible s u⟩,
         ⟨rfl, rfl,
          coarse_boundaryRead_visible t (cu.applyOperator newId op dc),
          coarse_lookup3dRead_visible t (cu.applyOperator newId op dc),
          coarse_principalAxesRead_visible t (cu.applyOperator newId op dc),
          coarse_boundaryRead_visible t cu⟩⟩

/-- C5: `areInvariantElementsEqual` is true exactly when the hash codes match
and the canonical element subsets are equal as ordered sequences; hence
groups over order-permuted subsets are never invariant-equal, while groups
whose first units share invariantId and the identical ordered subset are
invariant-equal no matter which transforms (unit ids / operators) they
contain. -/
theorem c5_invariant_elements_equal :
    (∀ a b : SymmetryGroup,
      areInvariantElementsEqual a b = true ↔
        a.hashCode = b.hashCode ∧ a.elements = b.elements) ∧
    (∀ (u0 v0 : AnyUnit) (r1 r2 : List AnyUnit),
      u0.elements.Perm v0.elements → u0.elements ≠ v0.elements →
      areInvariantElementsEqual (mkSymmetryGroup u0 r1) (mkSymmetryGroup v0 r2) = false) ∧
    (∀ (u0 v0 : AnyUnit) (r1 r2 : List AnyUnit),
      u0.invariantId = v0.invariantId → u0.elements = v0.elements →
      areInvariantElementsEqual (mkSymmetryGroup u0 r1) (mkSymmetryGroup v0 r2) = true) := by
  refine ⟨fun a b => ?_, fun u0 v0 r1 r2 hperm hne => ?_, fun u0 v0 r1 r2 hinv helems => ?_⟩
  · by_cases h : a.hashCode = b.hashCode <;>
      simp [areInvariantElementsEqual, sortedArrayAreEqual, h]
  · by_cases hh : hashUnit u0 = hashUnit v0 <;>
      simp [areInvariantElementsEqual, mkSymmetryGroup, sortedArrayAreEqual, hh, hne]
  · simp [areInvariantElementsEqual, mkSymmetryGroup, hashUnit, sortedArrayAreEqual,
          hinv, helems]

/-- Group head over the subset `[1, 2]`. -/
def permUnitA : AnyUnit := AnyUnit.atomic { c2Unit with elements := [1, 2] }

/-- Group head over the reversed subset `[2, 1]`. -/
def permUnitB : AnyUnit := AnyUnit.atomic { c2Unit with elements := [2, 1] }

/-- Group head: translated copy. -/
def transUnitA : AnyUnit := AnyUnit.atomic { c2Unit with id := 7 }

/-- Group head: identity copy of the same invariant atom set, different unit
id and operator. -/
def transUnitB : AnyUnit :=
  AnyUnit.atomic { c2Unit with id := 8, conformation := createMapping opIdentity coordsA none }

/-- C5 witness: permuted subsets compare as not invariant-equal; the same
ordered subset under different transforms compares as invariant-equal. -/
theorem c5_invariant_elements_equal_witness :
    areInvariantElementsEqual (mkSymmetryGroup permUnitA []) (mkSymmetryGroup permUnitB []) =
      false ∧
    areInvariantElementsEqual (mkSymmetryGroup transUnitA []) (mkSymmetryGroup transUnitB []) =
      true := by
  exact ⟨c5_invariant_elements_equal.2.1 permUnitA permUnitB [] [] (by decide) (by decide),
         c5_invariant_elements_equal.2.2 transUnitA transUnitB [] [] rfl rfl⟩

/-- Second boundary read of an Atomic unit is served from the bag. -/
theorem atomic_boundary_memo (u : Atomic) :
    u.boundaryRead.2.1.boundaryRead = (u.boundaryRead.1, u.boundaryRead.2.1, false) := by
  cases h : u.props.boundary with
  | some b => simp [Atomic.boundaryRead, h]
  | none => simp [Atomic.boundaryRead, h]

/-- Second lookup3d read of an Atomic unit is served from the bag. -/
theorem atomic_lookup3d_memo (u : Atomic) :
    u.lookup3dRead.2.1.lookup3dRead = (u.lookup3dRead.1, u.lookup3dRead.2.1, false) := by
  cases h : u.props.lookup3d with
  | some l => simp [Atomic.lookup3dRead, h]
  | none =>
    cases hb : u.props.boundary with
    | some b => simp [Atomic.lookup3dRead, Atomic.boundaryRead, h, hb]
    | none => simp [Atomic.lookup3dRead, Atomic.boundaryRead, h, hb]

/-- Second principal-axes read of an Atomic unit is served from the bag. -/
theorem atomic_principal_axes_memo (u : Atomic) :
    u.principalAxesRead.2.1.principalAxesRead =
      (u.principalAxesRead.1, u.principalAxesRead.2.1, false) := by
  cases h : u.props.principalAxes with
  | some p => simp [Atomic.principalAxesRead, h]
  | none => simp [Atomic.principalAxesRead, h]

/-- Second bonds read of an Atomic unit is served from the bag; neither the
shared cache nor the computation is touched again. -/
theorem atomic_bonds_memo (u : Atomic) (k : BondCache) :
    (u.bondsRead k).2.1.bondsRead (u.bondsRead k).2.2.1 =
      ((u.bondsRead k).1, (u.bondsRead k).2.1, (u.bondsRead k).2.2.1, false) := by
  cases h : u.props.bonds with
  | some b => simp [Atomic.bondsRead, h]
  | none =>
    cases hc : bondCacheGet k u.model u.elements with
    | some b => simp [Atomic.bondsRead, h, hc]
    | none => simp [Atomic.bondsRead, h, hc]

/-- Second rings read of an Atomic unit is served from the bag. -/
theorem atomic_rings_memo (u : Atomic) :
    u.ringsRead.2.1.ringsRead = (u.ringsRead.1, u.ringsRead.2.1, false) := by
  cases h : u.props.rings with
  | some r => simp [Atomic.ringsRead, h]
  | none => simp [Atomic.ringsRead, h]

/-- Second polymer-elements read of an Atomic unit is served from the bag. -/
theorem atomic_polymer_memo (u : Atomic) :
    u.polymerElementsRead.2.1.polymerElementsRead =
      (u.polymerElementsRead.1, u.polymerElementsRead.2.1, false) := by
  cases h : u.props.polymerElements with
  | some p => simp [Atomic.polymerElementsRead, h]
  | none => simp [Atomic.polymerElementsRead, h]

/-- Second gap-elements read of an Atomic unit is served from the bag. -/
theorem atomic_gap_memo (u : Atomic) :
    u.gapElementsRead.2.1.gapElementsRead =
      (u.gapElementsRead.1, u.gapElementsRead.2.1, false) := by
  cases h : u.props.gapElements with
  | some p => simp [Atomic.gapElementsRead, h]
  | none => simp [Atomic.gapElementsRead, h]

/-- Second nucleotide-elements read of an Atomic unit is served from the
bag. -/
theorem atomic_nucleotide_memo (u : Atomic) :
    u.nucleotideElementsRead.2.1.nucleotideElementsRead =
      (u.nucleotideElementsRead.1, u.nucleotideElementsRead.2.1, false) := by
  cases h : u.props.nucleotideElements with
  | some p => simp [Atomic.nucleotideElementsRead, h]
  | none => simp [Atomic.nucleotideElementsRead, h]

/-- Second protein-elements read of an Atomic unit is served from the bag. -/
theorem atomic_protein_memo (u : Atomic) :
    u.proteinElementsRead.2.1.proteinElementsRead =
      (u.proteinElementsRead.1, u.proteinElementsRead.2.1, false) := by
  cases h : u.props.proteinElements with
  | some p => simp [Atomic.proteinElementsRead, h]
  | none => simp [Atomic.proteinElementsRead, h]

/-- Second residue-count read of an Atomic unit is served from the bag. -/
theorem atomic_residue_count_memo (u : Atomic) :
    u.residueCountRead.2.1.residueCountRead =
      (u.residueCountRead.1, u.residueCountRead.2.1, false) := by
  cases h : u.props.residueCount with
  | some n => simp [Atomic.residueCountRead, h]
  | none => simp [Atomic.residueCountRead, h]

/-- Second boundary read of a coarse unit is served from the bag. -/
theorem coarse_boundary_memo (c : CoarseU) :
    c.boundaryRead.2.1.boundaryRead = (c.boundaryRead.1, c.boundaryRead.2.1, false) := by
  cases h : c.props.boundary with
  | some b => simp [CoarseU.boundaryRead, h]
  | none => simp [CoarseU.boundaryRead, h]

/-- Second lookup3d read of a coarse unit is served from the bag. -/
theorem coarse_lookup3d_memo (c : CoarseU) :
    c.lookup3dRead.2.1.lookup3dRead = (c.lookup3dRead.1, c.lookup3dRead.2.1, false) := by
  cases h : c.props.lookup3d with
  | some l => simp [CoarseU.lookup3dRead, h]
  | none =>
    cases hb : c.props.boundary with
    | some b => simp [CoarseU.lookup3dRead, CoarseU.boundaryRead, h, hb]
    | none => simp [CoarseU.lookup3dRead, CoarseU.boundaryRead, h, hb]

/-- Second principal-axes read of a coarse unit is served from the bag. -/
theorem coarse_principal_axes_memo (c : CoarseU) :
    c.principalAxesRead.2.1.principalAxesRead =
      (c.principalAxesRead.1, c.principalAxesRead.2.1, false) := by
  cases h : c.props.principalAxes with
  | some p => simp [CoarseU.principalAxesRead, h]
  | none => simp [CoarseU.principalAxesRead, h]

/-- Second polymer-elements read of a coarse unit is served from the bag. -/
theorem coarse_polymer_memo (c : CoarseU) :
    c.polymerElementsRead.2.1.polymerElementsRead =
      (c.polymerElementsRead.1, c.polymerElementsRead.2.1, false) := by
  cases h : c.props.polymerElements with
  | some p => simp [CoarseU.polymerElementsRead, h]
  | none => simp [CoarseU.polymerElementsRead, h]

/-- Second gap-elements read of a coarse unit is served from the bag. -/
theorem coarse_gap_memo (c : CoarseU) :
    c.gapElementsRead.2.1.gapElementsRead =
      (c.gapElementsRead.1, c.gapElementsRead.2.1, false) := by
  cases h : c.props.gapElements with
  | some p => simp [CoarseU.gapElementsRead, h]
  | none => simp [CoarseU.gapElementsRead, h]

/-- C8: every derived-property accessor is memoized per unit instance: after
any first read, a second read runs no computation (flag `false`) and returns
the stored value and unit unchanged; this covers boundary, lookup3d,
principalAxes, bonds, rings, polymerElements, gapElements,
nucleotideElements, proteinElements and residueCount on Atomic units, and
the coarse variants' properties. -/
theorem c8_getters_memoized (u : Atomic) (k : BondCache) (c : CoarseU) :
    u.boundaryRead.2.1.boundaryRead = (u.boundaryRead.1, u.boundaryRead.2.1, false) ∧
    u.lookup3dRead.2.1.lookup3dRead = (u.lookup3dRead.1, u.lookup3dRead.2.1, false) ∧
    u.principalAxesRead.2.1.principalAxesRead =
      (u.principalAxesRead.1, u.principalAxesRead.2.1, false) ∧
    (u.bondsRead k).2.1.bondsRead (u.bondsRead k).2.2.1 =
      ((u.bondsRead k).1, (u.bondsRead k).2.1, (u.bondsRead k).2.2.1, false) ∧
    u.ringsRead.2.1.ringsRead = (u.ringsRead.1, u.ringsRead.2.1, false) ∧
    u.polymerElementsRead.2.1.polymerElementsRead =
      (u.polymerElementsRead.1, u.polymerElementsRead.2.1, false) ∧
    u.gapElementsRead.2.1.gapElementsRead =
      (u.gapElementsRead.1, u.gapElementsRead.2.1, false) ∧
    u.nucleotideElementsRead.2.1.nucleotideElementsRead =
      (u.nucleotideElementsRead.1, u.nucleotideElementsRead.2.1, false) ∧
    u.proteinElementsRead.2.1.proteinElementsRead =
      (u.proteinElementsRead.1, u.proteinElementsRead.2.1, false) ∧
    u.residueCountRead.2.1.residueCountRead =
      (u.residueCountRead.1, u.residueCountRead.2.1, false) ∧
    c.boundaryRead.2.1.boundaryRead = (c.boundaryRead.1, c.boundaryRead.2.1, false) ∧
    c.lookup3dRead.2.1.lookup3dRead = (c.lookup3dRead.1, c.lookup3dRead.2.1, false) ∧
    c.principalAxesRead.2.1.principalAxesRead =
      (c.principalAxesRead.1, c.principalAxesRead.2.1, false) ∧
    c.polymerElementsRead.2.1.polymerElementsRead =
      (c.polymerElementsRead.1, c.polymerElementsRead.2.1, false) ∧
    c.gapElementsRead.2.1.gapElementsRead =
      (c.gapElementsRead.1, c.gapElementsRead.2.1, false) := by
  exact ⟨atomic_boundary_memo u, atomic_lookup3d_memo u, atomic_principal_axes_memo u,
         atomic_bonds_memo u k, atomic_rings_memo u, atomic_polymer_memo u,
         atomic_gap_memo u, atomic_nucleotide_memo u, atomic_protein_memo u,
         atomic_residue_count_memo u, coarse_boundary_memo c, coarse_lookup3d_memo c,
         coarse_principal_axes_memo c, coarse_polymer_memo c, coarse_gap_memo c⟩

/-- A unit whose base store coincides with the model's raw store passes the
coordinate-identity check. -/
theorem isSame_of_coords_eq (a : Atomic) (m : Model)
    (h : a.conformation.coordinates = m.atomicConformation) :
    isSameConformation a m = true := by
  simp [isSameConformation, List.all_eq_true, h]

/-- Bonds always survive `tryRemapBonds` when the two models share the same
atomic-conformation identity. -/
theorem tryRemapBonds_id_eq (a : Atomic) (ob : Option IntraUnitBonds) (m : Model)
    (h : a.model.atomicConformation.id = m.atomicConformation.id) :
    tryRemapBonds a ob m = ob := by
  cases ob with
  | none => rfl
  | some o => simp [tryRemapBonds, h]

/-- Every boundary contains itself. -/
theorem boundaryContains_refl (b : Boundary) : boundaryContains b b = true := by
  simp [boundaryContains]

/-- A successfully adjusted boundary re-adjusts to itself. -/
theorem tryAdjust_stable (co : Coords) (e : List Nat) (b nb : Boundary)
    (h : tryAdjustBoundary co e b = some nb) :
    tryAdjustBoundary co e nb = some nb := by
  unfold tryAdjustBoundary at h ⊢
  by_cases hc : boundaryContains b (getBoundary co e) = true
  · simp [hc] at h
    subst h
    simp [boundaryContains_refl]
  · simp [hc] at h

/-- Fieldwise extensionality of Atomic property bags. -/
theorem atomicProps_eq (p q : AtomicProperties)
    (hb : p.boundary = q.boundary) (hl : p.lookup3d = q.lookup3d)
    (hp : p.principalAxes = q.principalAxes)
    (hpo : p.polymerElements = q.polymerElements)
    (hg : p.gapElements = q.gapElements) (hbo : p.bonds = q.bonds)
    (hr : p.rings = q.rings) (hn : p.nucleotideElements = q.nucleotideElements)
    (hpr : p.proteinElements = q.proteinElements)
    (hrc : p.residueCount = q.residueCount) : p = q := by
  cases p; cases q; simp_all

/-- Fieldwise extensionality of coarse property bags. -/
theorem coarseProps_eq (p q : CoarseProperties)
    (hb : p.boundary = q.boundary) (hl : p.lookup3d = q.lookup3d)
    (hp : p.principalAxes = q.principalAxes)
    (hpo : p.polymerElements = q.polymerElements)
    (hg : p.gapElements = q.gapElements) : p = q := by
  cases p; cases q; simp_all

/-- Remapping a well-formed unit leaves its base store equal to the target
model's store. -/
theorem atomic_remap_coords (u : Atomic) (m : Model)
    (h : u.conformation.coordinates = u.model.atomicConformation) :
    (u.remapModel m).conformation.coordinates = m.atomicConformation := by
  have he : (u.remapModel m).conformation =
      (if u.model.atomicConformation = m.atomicConformation then u.conformation
       else createMapping u.conformation.operator m.atomicConformation none) := rfl
  rw [he]
  split
  · next hc => exact h.trans hc
  · rfl

/-- Remapping a unit that already matches the target model's store (same
conformation identity, empty lookup3d/principalAxes slots) changes no cache
state. -/
theorem atomic_remap_stable (r : Atomic) (m : Model)
    (h1 : isSameConformation r m = true)
    (h2 : r.model.atomicConformation.id = m.atomicConformation.id)
    (h3 : r.props.lookup3d = none) (h4 : r.props.principalAxes = none) :
    (r.remapModel m).props = r.props := by
  refine atomicProps_eq _ _ ?_ h3.symm h4.symm rfl rfl
    (tryRemapBonds_id_eq r r.props.bonds m h2) rfl rfl rfl rfl
  have hb : (r.remapModel m).props.boundary =
      (match r.props.boundary with
       | some b =>
         if isSameConformation r m then some b
         else tryAdjustBoundary m.atomicConformation r.elements b
       | none => none) := rfl
  rw [hb]
  cases hob : r.props.boundary with
  | some b => simp [h1]
  | none => rfl

/-- C6: remapping to the same model twice yields exactly the cache state of
a single remap, for Atomic units (whose base store is the model's, as every
construction path guarantees) and for coarse units. -/
theorem c6_remap_idempotent (u : Atomic) (m : Model) (c : CoarseU) (m2 : Model)
    (h : u.conformation.coordinates = u.model.atomicConformation) :
    ((u.remapModel m).remapModel m).props = (u.remapModel m).props ∧
    ((c.remapModel m2).remapModel m2).props = (c.remapModel m2).props := by
  constructor
  · exact atomic_remap_stable (u.remapModel m) m
      (isSame_of_coords_eq _ _ (atomic_remap_coords u m h)) rfl rfl rfl
  · refine coarseProps_eq _ _ ?_ rfl rfl rfl rfl
    have hb2 : ((c.remapModel m2).remapModel m2).props.boundary =
        (match (c.remapModel m2).props.boundary with
         | some b =>
           tryAdjustBoundary (coarseConformationOf c.kind m2) c.elements b
         | none => none) := rfl
    have hb1 : (c.remapModel m2).props.boundary =
        (match c.props.boundary with
         | some b =>
           tryAdjustBoundary (coarseConformationOf c.kind m2) c.elements b
         | none => none) := rfl
    rw [hb2]
    cases hob : (c.remapModel m2).props.boundary with
    | none => rfl
    | some nb =>
      rw [hb1] at hob
      cases hcb : c.props.boundary with
      | none => rw [hcb] at hob; cases hob
      | some b0 =>
        rw [hcb] at hob
        exact tryAdjust_stable _ _ _ _ hob

/-- C6 witness: remap idempotence at a concrete atomic unit (across a real
model change) and a concrete coarse unit. -/
theorem c6_remap_idempotent_witness :
    ((c2Unit.remapModel modelIdxB).remapModel modelIdxB).props =
      (c2Unit.remapModel modelIdxB).props ∧
    ((coarseUnitA.remapModel modelA).remapModel modelA).props =
      (coarseUnitA.remapModel modelA).props :=
  c6_remap_idempotent c2Unit modelIdxB coarseUnitA modelA rfl

/-- A fully populated derived-property bag. -/
def fullProps : AtomicProperties :=
  { boundary := some ⟨0, 0, 0, 2, 0, 0⟩,
    lookup3d := some (mkGridLookup3D coordsA [0, 1] ⟨0, 0, 0, 2, 0, 0⟩),
    principalAxes := some ⟨[(0, 0, 0), (2, 0, 0)]⟩,
    polymerElements := some [0], gapElements := some [],
    bonds := some ⟨[(0, 1)], false⟩, rings := some ⟨[]⟩,
    nucleotideElements := some [], proteinElements := some [0, 1],
    residueCount := some 1 }

/-- A unit over `modelA` with every derived property cached. -/
def c1Unit : Atomic :=
  { id := 4, invariantId := 0, chainGroupId := 0, traits := 0, model := modelA,
    elements := [0, 1], conformation := createMapping opIdentity coordsA none,
    props := fullProps }

/-- C1: the claim is false on the code: remapping to a model whose atomic
store is reference-identical (here, the unit's own model) still clears the
cached `lookup3d`, so not every cached property is carried over. -/
theorem c1_remap_pure_rebind_cex :
    c1Unit.model = modelA ∧
    c1Unit.props.lookup3d ≠ none ∧
    (c1Unit.remapModel modelA).props.lookup3d = none := by
  decide

/-- C1 (amended): when the new model's atomic store is reference-identical
to the old one's, `remapModel` is a pure rebind for the conformation and for
every cached property *except* `lookup3d` and `principalAxes`, which are
always cleared for lazy recomputation. -/
theorem c1_remap_pure_rebind_amended (u : Atomic) (m : Model)
    (h : u.conformation.coordinates = u.model.atomicConformation)
    (hm : m.atomicConformation = u.model.atomicConformation) :
    (u.remapModel m).model = m ∧
    (u.remapModel m).conformation = u.conformation ∧
    (u.remapModel m).props.boundary = u.props.boundary ∧
    (u.remapModel m).props.bonds = u.props.bonds ∧
    (u.remapModel m).props.rings = u.props.rings ∧
    (u.remapModel m).props.polymerElements = u.props.polymerElements ∧
    (u.remapModel m).props.gapElements = u.props.gapElements ∧
    (u.remapModel m).props.nucleotideElements = u.props.nucleotideElements ∧
    (u.remapModel m).props.proteinElements = u.props.proteinElements ∧
    (u.remapModel m).props.residueCount = u.props.residueCount ∧
    (u.remapModel m).props.lookup3d = none ∧
    (u.remapModel m).props.principalAxes = none := by
  have hsame : isSameConformation u m = true :=
    isSame_of_coords_eq u m (h.trans hm.symm)
  refine ⟨rfl, ?_, ?_, tryRemapBonds_id_eq u u.props.bonds m (by rw [hm]),
          rfl, rfl, rfl, rfl, rfl, rfl, rfl, rfl⟩
  · have he : (u.remapModel m).conformation =
        (if u.model.atomicConformation = m.atomicConformation then u.conformation
         else createMapping u.conformation.operator m.atomicConformation none) := rfl
    rw [he, if_pos hm.symm]
  · have hb : (u.remapModel m).props.boundary =
        (match u.props.boundary with
         | some b =>
           if isSameConformation u m then some b
           else tryAdjustBoundary m.atomicConformation u.elements b
         | none => none) := rfl
    rw [hb]
    cases hob : u.props.boundary with
    | some b => simp [hsame]
    | none => rfl

/-- C1 witness: the amended carry-over laws at a concrete fully cached unit
rebound to its own model. -/
theorem c1_remap_pure_rebind_witness :
    (c1Unit.remapModel modelA).props.boundary = c1Unit.props.boundary ∧
    (c1Unit.remapModel modelA).props.bonds = c1Unit.props.bonds ∧
    (c1Unit.remapModel modelA).props.residueCount = c1Unit.props.residueCount ∧
    (c1Unit.remapModel modelA).props.lookup3d = none :=
  ⟨(c1_remap_pure_rebind_amended c1Unit modelA rfl rfl).2.2.1,
   (c1_remap_pure_rebind_amended c1Unit modelA rfl rfl).2.2.2.1,
   (c1_remap_pure_rebind_amended c1Unit modelA rfl rfl).2.2.2.2.2.2.2.2.2.1,
   (c1_remap_pure_rebind_amended c1Unit modelA rfl rfl).2.2.2.2.2.2.2.2.2.2.1⟩

/-- Looking up the pair just stored in the shared bond cache. -/
theorem bondCacheGet_set (k : BondCache) (m : Model) (e : List Nat)
    (b : IntraUnitBonds) :
    bondCacheGet (bondCacheSet k m e b) m e = some b := by
  simp [bondCacheGet, bondCacheSet, List.lookup]

/-- C7 (amended): for two Atomic units on the same model with equal element
subsets and invariantId, *neither of which already holds an instance-cached
bond graph*, reading `u1.bonds` and then `u2.bonds` runs the full
computation at most once: the second read never computes (it is served from
the instance bag or the shared per-model cache) and returns the same graph
as the first. -/
theorem c7_bond_cache_sharing_amended (u1 u2 : Atomic) (k : BondCache)
    (hm : u1.model = u2.model) (he : u1.elements = u2.elements)
    (hinv : u1.invariantId = u2.invariantId)
    (h1 : u1.props.bonds = none) (h2 : u2.props.bonds = none) :
    (u2.bondsRead (u1.bondsRead k).2.2.1).2.2.2 = false ∧
    (u2.bondsRead (u1.bondsRead k).2.2.1).1 = (u1.bondsRead k).1 := by
  have hg : ∀ kk : BondCache,
      bondCacheGet kk u2.model u2.elements = bondCacheGet kk u1.model u1.elements := by
    intro kk; rw [hm, he]
  cases hc : bondCacheGet k u1.model u1.elements with
  | some b =>
    constructor <;> simp [Atomic.bondsRead, h1, h2, hc, hg]
  | none =>
    constructor <;> simp [Atomic.bondsRead, h1, h2, hc, hg, bondCacheGet_set]

/-- Fresh unit fixture for bond-cache sharing. -/
def c7u1 : Atomic :=
  { id := 11, invariantId := 0, chainGroupId := 0, traits := 0, model := modelA,
    elements := [0, 1], conformation := createMapping opShiftX coordsA none,
    props := {} }

/-- Second fresh unit: same invariant atom set, different id and operator. -/
def c7u2 : Atomic :=
  { id := 12, invariantId := 0, chainGroupId := 0, traits := 0, model := modelA,
    elements := [0, 1], conformation := createMapping opIdentity coordsA none,
    props := {} }

/-- C7 witness: on two concrete fresh units the second read is a cache hit
returning the graph the first read computed. -/
theorem c7_bond_cache_sharing_witness :
    (c7u2.bondsRead (c7u1.bondsRead []).2.2.1).2.2.2 = false ∧
    (c7u2.bondsRead (c7u1.bondsRead []).2.2.1).1 = (c7u1.bondsRead []).1 :=
  c7_bond_cache_sharing_amended c7u1 c7u2 [] rfl rfl rfl rfl rfl

/-- A unit that already carries an instance-cached bond graph different from
what the computation would produce (such units arise from `canRemap`
carry-over across model changes). -/
def c7pre : Atomic :=
  { c7u1 with props := { bonds := some ⟨[(9, 9)], false⟩ } }

/-- C7: the claim is false on the code as universally stated: with the
claim's premises satisfied (same model, same invariantId, equal elements),
a first read served from the instance bag bypasses the shared cache, so the
second read runs the full computation (not a cache hit) and the two reads
return different bond graphs. -/
theorem c7_bond_cache_sharing_cex :
    c7pre.model = c7u2.model ∧
    c7pre.invariantId = c7u2.invariantId ∧
    c7pre.elements = c7u2.elements ∧
    (c7u2.bondsRead (c7pre.bondsRead []).2.2.1).2.2.2 = true ∧
    (c7u2.bondsRead (c7pre.bondsRead []).2.2.1).1 ≠ (c7pre.bondsRead []).1 := by
  decide
